import Mathlib

/-!
Shallow embedding of the SPIR-V ray-tracing lowering of naga
(src/naga/src/back/spv/ray.rs): the block-context state, the instruction
records it emits, and the three lowering routines
write_ray_query_function, write_ray_query_get_intersection and
write_ray_tracing_function, followed by theorems about them.
Identifiers are Nat; expression handles and type handles are Nat indices.
-/

namespace WgpuRay

/-- Scalar kinds appearing in the ray lowering (crate::Scalar values U32, F32, BOOL). -/
inductive ScalarKind where
  | U32
  | F32
  | Bool
deriving DecidableEq

/-- Vector sizes (crate::VectorSize). -/
inductive VectorSize where
  | Bi
  | Tri
  | Quad
deriving DecidableEq

/-- Storage classes used by the ray lowering (spirv::StorageClass). -/
inductive StorageClass where
  | rayPayloadKHR
  | hitAttributeKHR
deriving DecidableEq

/-- Structural type descriptions (super::LocalType), restricted to the shapes built in ray.rs. -/
inductive LocalType where
  | value (vectorSize : Option VectorSize) (scalar : ScalarKind) (pointerSpace : Option StorageClass)
  | matrix (columns : VectorSize) (rows : VectorSize) (width : Nat)
deriving DecidableEq

/-- Type lookup keys (super::LookupType): a structural local type or a type-arena handle. -/
inductive LookupType where
  | localType (t : LocalType)
  | handle (h : Nat)
deriving DecidableEq

/-- The per-attribute ray-query intersection opcodes (spirv::Op RayQueryGetIntersection family). -/
inductive IntersectionOp where
  | typeKHR
  | instanceCustomIndexKHR
  | instanceIdKHR
  | sbtRecordOffsetKHR
  | geometryIndexKHR
  | primitiveIndexKHR
  | tKHR
  | barycentricsKHR
  | frontFaceKHR
  | objectToWorldKHR
  | worldToObjectKHR
deriving DecidableEq

/-- Instruction records emitted by the ray lowering. Constructor arguments follow the
argument order of the corresponding Instruction builder calls in ray.rs. -/
inductive Instruction where
  | compositeExtract (typeId resultId srcId : Nat) (indices : List Nat)
  | rayQueryInitializeKHR (queryId accStructId rayFlagsId cullMaskId originId tminId dirId tmaxId : Nat)
  | rayQueryProceedKHR (typeId resultId queryId : Nat)
  | rayQueryGetIntersection (op : IntersectionOp) (typeId resultId queryId intersectionId : Nat)
  | compositeConstruct (typeId resultId : Nat) (components : List Nat)
  | copyMemory (dstId srcId : Nat)
  | traceRayKHR (accStructId flagsId maskId sbtOffsetId sbtStrideId missIndexId originId tminId dirId tmaxId payloadId : Nat)
  | typePointer (resultId : Nat) (sc : StorageClass) (typeId : Nat)
  | varDecl (typeId resultId : Nat) (sc : StorageClass)
  | store (ptrId valueId : Nat)
  | reportIntersectionKHR (typeId resultId hitTId hitKindId : Nat)
  | typeDecl (t : LookupType) (resultId : Nat)
  | constU32 (value resultId : Nat)
deriving DecidableEq

/-- Shader stages; only threaded through to the varying writer. -/
inductive ShaderStage where
  | vertex
  | fragment
  | compute
  | rayGeneration
  | closestHit
  | anyHit
  | intersectionStage
  | missStage
  | callable
deriving DecidableEq

/-- The compilation-context state visible to the ray lowering: the id allocator counter,
the per-function value cache (expression handle to generated id), the module-wide type
cache and constant cache, the module declaration section, the per-function expression
type info, the global-handle resolution table and the registered ray-intersection
special type. -/
structure Ctx where
  nextId : Nat
  cached : Nat → Option Nat
  typeCache : List (LookupType × Nat)
  constCache : List (Nat × Nat)
  declarations : List Instruction
  funInfo : Nat → LookupType
  handleIds : Nat → Option Nat
  rayIntersectionType : Option Nat

/-- ID Allocator (IdGenerator, modelled from the spec: a counter owned by the compilation
context; each call returns the next unused identifier). -/
def gen_id (s : Ctx) : Nat × Ctx :=
  (s.nextId, { s with nextId := s.nextId + 1 })

/-- Association-list lookup for the type cache. -/
def lookupType (t : LookupType) : List (LookupType × Nat) → Option Nat
  | [] => none
  | (k, v) :: rest => if k = t then some v else lookupType t rest

/-- Association-list lookup for the constant cache. -/
def lookupConst (v : Nat) : List (Nat × Nat) → Option Nat
  | [] => none
  | (k, i) :: rest => if k = v then some i else lookupConst v rest

/-- Modelled from the spec: the Type Interner (get_type_id, writer module, not under src/).
Given a structural type description it returns the existing identifier if one was already
allocated for an equal description; otherwise it allocates a fresh identifier, records it
in the type cache and appends one type declaration to the module declaration section. -/
def get_type_id (t : LookupType) (s : Ctx) : Nat × Ctx :=
  match lookupType t s.typeCache with
  | some i => (i, s)
  | none =>
    (s.nextId,
      { s with
          nextId := s.nextId + 1
          typeCache := (t, s.nextId) :: s.typeCache
          declarations := s.declarations ++ [Instruction.typeDecl t s.nextId] })

/-- Modelled from the spec: get_constant_scalar for a u32 literal (writer module, not under
src/): returns the cached identifier for the constant if present, otherwise allocates a
fresh identifier, records it and appends one constant declaration. -/
def get_constant_scalar (v : Nat) (s : Ctx) : Nat × Ctx :=
  match lookupConst v s.constCache with
  | some i => (i, s)
  | none =>
    (s.nextId,
      { s with
          nextId := s.nextId + 1
          constCache := (v, s.nextId) :: s.constCache
          declarations := s.declarations ++ [Instruction.constU32 v s.nextId] })

/-- get_index_constant, as in the source a u32 scalar constant request. -/
def get_index_constant (i : Nat) (s : Ctx) : Nat × Ctx :=
  get_constant_scalar i s

/-- Modelled from the spec: write_varying (writer module, not under src/) resolves a
dedicated storage slot for the ray payload type in the ray-payload storage class; it
allocates a fresh identifier and appends the variable declaration to the module
declaration section, emitting nothing into the function body. -/
def write_varying (_stage : ShaderStage) (payloadTy : Nat) (s : Ctx) : Nat × Ctx :=
  (s.nextId,
    { s with
        nextId := s.nextId + 1
        declarations := s.declarations ++
          [Instruction.varDecl payloadTy s.nextId StorageClass.rayPayloadKHR] })

/-- Shorthand for the u32 structural type key built in ray.rs. -/
def u32T : LookupType := .localType (.value none .U32 none)

/-- Shorthand for the f32 structural type key built in ray.rs. -/
def f32T : LookupType := .localType (.value none .F32 none)

/-- Shorthand for the vec3 f32 structural type key built in ray.rs. -/
def vec3T : LookupType := .localType (.value (some .Tri) .F32 none)

/-- Shorthand for the vec2 f32 structural type key built in ray.rs. -/
def vec2T : LookupType := .localType (.value (some .Bi) .F32 none)

/-- Shorthand for the bool structural type key built in ray.rs. -/
def boolT : LookupType := .localType (.value none .Bool none)

/-- Shorthand for the 4x3 f32 matrix structural type key built in ray.rs. -/
def mat4x3T : LookupType := .localType (.matrix .Quad .Tri 4)

/-- The committed-intersection selector constant
(spirv::RayQueryIntersection::RayQueryCommittedIntersectionKHR). -/
def rayQueryCommittedIntersectionKHR : Nat := 1

/-- Ray-query operations (crate::RayQueryFunction); init models the Initialize variant. -/
inductive RayQueryFunction where
  | init (accelerationStructure : Nat) (descriptor : Nat)
  | proceed (result : Nat)
  | terminate

/-- Ray-tracing operations (crate::RayTracingFunction). -/
inductive RayTracingFunction where
  | traceRay (accelerationStructure descriptor payload payloadTy : Nat)
  | reportIntersection (hitT hitType intersection : Nat) (intersectionTy : LookupType) (result : Nat)

/-- Lowering of a ray-query operation (BlockContext::write_ray_query_function, ray.rs
lines 11 to 109). A missing value-cache entry or unresolvable handle models the fatal
abort of the source (the cached-expression index panics on a missing entry); on the
fatal path no instruction is produced. On success the function body gains the listed
instructions, in emission order, and the updated context is returned. -/
def write_ray_query_function (query : Nat) (f : RayQueryFunction)
    (block : List Instruction) (s : Ctx) : Option (List Instruction × Ctx) :=
  match s.cached query with
  | none => none
  | some query_id =>
    match f with
    | .init acceleration_structure descriptor =>
      match s.cached descriptor with
      | none => none
      | some desc_id =>
        match s.handleIds acceleration_structure with
        | none => none
        | some acc_struct_id =>
          let p1 := get_type_id u32T s
          let flag_type_id := p1.1
          let p2 := gen_id p1.2
          let ray_flags_id := p2.1
          let p3 := gen_id p2.2
          let cull_mask_id := p3.1
          let p4 := get_type_id f32T p3.2
          let scalar_type_id := p4.1
          let p5 := gen_id p4.2
          let tmin_id := p5.1
          let p6 := gen_id p5.2
          let tmax_id := p6.1
          let p7 := get_type_id vec3T p6.2
          let vector_type_id := p7.1
          let p8 := gen_id p7.2
          let ray_origin_id := p8.1
          let p9 := gen_id p8.2
          let ray_dir_id := p9.1
          some (block ++
            [ Instruction.compositeExtract flag_type_id ray_flags_id desc_id [0],
              Instruction.compositeExtract flag_type_id cull_mask_id desc_id [1],
              Instruction.compositeExtract scalar_type_id tmin_id desc_id [2],
              Instruction.compositeExtract scalar_type_id tmax_id desc_id [3],
              Instruction.compositeExtract vector_type_id ray_origin_id desc_id [4],
              Instruction.compositeExtract vector_type_id ray_dir_id desc_id [5],
              Instruction.rayQueryInitializeKHR query_id acc_struct_id ray_flags_id
                cull_mask_id ray_origin_id tmin_id ray_dir_id tmax_id ], p9.2)
    | .proceed result =>
      let p1 := gen_id s
      let id := p1.1
      let s1 := { p1.2 with cached := fun n => if n = result then some id else p1.2.cached n }
      let p2 := get_type_id (s1.funInfo result) s1
      let result_type_id := p2.1
      some (block ++ [Instruction.rayQueryProceedKHR result_type_id id query_id], p2.2)
    | .terminate => some (block, s)

/-- Lowering of committed-intersection extraction
(BlockContext::write_ray_query_get_intersection, ray.rs lines 111 to 262). Emits the
eleven per-attribute extraction instructions in source order, then one
composite-construct in the layout order of the registered ray-intersection type, and
returns the constructed id together with the grown body and updated context. A missing
cached query or an unregistered ray-intersection special type models the fatal abort. -/
def write_ray_query_get_intersection (query : Nat) (block : List Instruction) (s : Ctx) :
    Option (Nat × List Instruction × Ctx) :=
  match s.cached query with
  | none => none
  | some query_id =>
    let q0 := get_constant_scalar rayQueryCommittedIntersectionKHR s
    let intersection_id := q0.1
    let q1 := get_type_id u32T q0.2
    let flag_type_id := q1.1
    let q2 := gen_id q1.2
    let kind_id := q2.1
    let q3 := gen_id q2.2
    let instance_custom_index_id := q3.1
    let q4 := gen_id q3.2
    let instance_id := q4.1
    let q5 := gen_id q4.2
    let sbt_record_offset_id := q5.1
    let q6 := gen_id q5.2
    let geometry_index_id := q6.1
    let q7 := gen_id q6.2
    let primitive_index_id := q7.1
    let q8 := get_type_id f32T q7.2
    let scalar_type_id := q8.1
    let q9 := gen_id q8.2
    let t_id := q9.1
    let q10 := get_type_id vec2T q9.2
    let barycentrics_type_id := q10.1
    let q11 := gen_id q10.2
    let barycentrics_id := q11.1
    let q12 := get_type_id boolT q11.2
    let bool_type_id := q12.1
    let q13 := gen_id q12.2
    let front_face_id := q13.1
    let q14 := get_type_id mat4x3T q13.2
    let transform_type_id := q14.1
    let q15 := gen_id q14.2
    let object_to_world_id := q15.1
    let q16 := gen_id q15.2
    let world_to_object_id := q16.1
    let q17 := gen_id q16.2
    let id := q17.1
    match s.rayIntersectionType with
    | none => none
    | some h =>
      let q18 := get_type_id (.handle h) q17.2
      let intersection_type_id := q18.1
      some (id, block ++
        [ Instruction.rayQueryGetIntersection .typeKHR flag_type_id kind_id query_id intersection_id,
          Instruction.rayQueryGetIntersection .instanceCustomIndexKHR flag_type_id
            instance_custom_index_id query_id intersection_id,
          Instruction.rayQueryGetIntersection .instanceIdKHR flag_type_id instance_id
            query_id intersection_id,
          Instruction.rayQueryGetIntersection .sbtRecordOffsetKHR flag_type_id
            sbt_record_offset_id query_id intersection_id,
          Instruction.rayQueryGetIntersection .geometryIndexKHR flag_type_id
            geometry_index_id query_id intersection_id,
          Instruction.rayQueryGetIntersection .primitiveIndexKHR flag_type_id
            primitive_index_id query_id intersection_id,
          Instruction.rayQueryGetIntersection .tKHR scalar_type_id t_id query_id intersection_id,
          Instruction.rayQueryGetIntersection .barycentricsKHR barycentrics_type_id
            barycentrics_id query_id intersection_id,
          Instruction.rayQueryGetIntersection .frontFaceKHR bool_type_id front_face_id
            query_id intersection_id,
          Instruction.rayQueryGetIntersection .objectToWorldKHR transform_type_id
            object_to_world_id query_id intersection_id,
          Instruction.rayQueryGetIntersection .worldToObjectKHR transform_type_id
            world_to_object_id query_id intersection_id,
          Instruction.compositeConstruct intersection_type_id id
            [ kind_id, t_id, instance_custom_index_id, instance_id, sbt_record_offset_id,
              geometry_index_id, primitive_index_id, barycentrics_id, front_face_id,
              object_to_world_id, world_to_object_id ] ], q18.2)

/-- Lowering of a ray-tracing operation (BlockContext::write_ray_tracing_function, ray.rs
lines 264 to 411). TraceRay extracts the six descriptor fields, brackets the dispatch
with the payload copy-in and copy-out, and emits the dispatch with the fixed operand
order of the source; ReportIntersection writes the per-call-site pointer type and
variable declarations directly into the module declaration section, stores the candidate
intersection value, emits the report instruction and records its result in the cache. -/
def write_ray_tracing_function (f : RayTracingFunction) (block : List Instruction)
    (stage : ShaderStage) (s : Ctx) : Option (List Instruction × Ctx) :=
  match f with
  | .traceRay acceleration_structure descriptor payload payload_ty =>
    match s.handleIds acceleration_structure with
    | none => none
    | some acc_struct_id =>
      let pv := write_varying stage payload_ty s
      let varying_id := pv.1
      match (pv.2).cached payload with
      | none => none
      | some payload_id =>
        match (pv.2).cached descriptor with
        | none => none
        | some desc_id =>
          let p1 := get_type_id u32T pv.2
          let flag_type_id := p1.1
          let p2 := gen_id p1.2
          let ray_flags_id := p2.1
          let p3 := gen_id p2.2
          let cull_mask_id := p3.1
          let p4 := get_type_id f32T p3.2
          let scalar_type_id := p4.1
          let p5 := gen_id p4.2
          let tmin_id := p5.1
          let p6 := gen_id p5.2
          let tmax_id := p6.1
          let p7 := get_type_id vec3T p6.2
          let vector_type_id := p7.1
          let p8 := gen_id p7.2
          let ray_origin_id := p8.1
          let p9 := gen_id p8.2
          let ray_dir_id := p9.1
          let c0 := get_index_constant 0 p9.2
          let c1 := get_index_constant 1 c0.2
          let c2 := get_index_constant 0 c1.2
          some (block ++
            [ Instruction.compositeExtract flag_type_id ray_flags_id desc_id [0],
              Instruction.compositeExtract flag_type_id cull_mask_id desc_id [1],
              Instruction.compositeExtract scalar_type_id tmin_id desc_id [2],
              Instruction.compositeExtract scalar_type_id tmax_id desc_id [3],
              Instruction.compositeExtract vector_type_id ray_origin_id desc_id [4],
              Instruction.compositeExtract vector_type_id ray_dir_id desc_id [5],
              Instruction.copyMemory varying_id payload_id,
              Instruction.traceRayKHR acc_struct_id ray_flags_id cull_mask_id c0.1 c1.1
                c2.1 ray_origin_id tmin_id ray_dir_id tmax_id varying_id,
              Instruction.copyMemory payload_id varying_id ], c2.2)
  | .reportIntersection hit_t hit_type intersection intersection_ty result =>
    let p1 := gen_id s
    let id := p1.1
    let p2 := gen_id p1.2
    let pointer_type_id := p2.1
    let p3 := get_type_id intersection_ty p2.2
    let ty_id := p3.1
    let s3 := { p3.2 with
      declarations := p3.2.declarations ++
        [ Instruction.typePointer id StorageClass.hitAttributeKHR ty_id,
          Instruction.varDecl id pointer_type_id StorageClass.hitAttributeKHR ] }
    match s3.cached hit_t with
    | none => none
    | some hit_t_id =>
      match s3.cached hit_type with
      | none => none
      | some hit_type_id =>
        match s3.cached intersection with
        | none => none
        | some intersection_id =>
          let p4 := gen_id s3
          let result_id := p4.1
          let p5 := get_type_id boolT p4.2
          let result_ty_id := p5.1
          let s5 := { p5.2 with
            cached := fun n => if n = result then some result_id else p5.2.cached n }
          some (block ++
            [ Instruction.store pointer_type_id intersection_id,
              Instruction.reportIntersectionKHR result_ty_id result_id hit_t_id hit_type_id ],
            s5)

/-- Intersection-extraction opcodes of an instruction list, in emission order. -/
def intersectionOps (l : List Instruction) : List IntersectionOp :=
  l.filterMap fun i =>
    match i with
    | .rayQueryGetIntersection op _ _ _ _ => some op
    | _ => none

/-- The documented field order of the ray intersection composite: kind, t, instance
custom index, instance id, SBT record offset, geometry index, primitive index,
barycentrics, front face, object-to-world, world-to-object. -/
def documentedFieldOrder : List IntersectionOp :=
  [.typeKHR, .tKHR, .instanceCustomIndexKHR, .instanceIdKHR, .sbtRecordOffsetKHR,
   .geometryIndexKHR, .primitiveIndexKHR, .barycentricsKHR, .frontFaceKHR,
   .objectToWorldKHR, .worldToObjectKHR]

/-- The order in which the source emits the eleven extraction instructions: the six
u32-typed attributes first, then t, barycentrics, front face and the two transforms. -/
def emissionOrder : List IntersectionOp :=
  [.typeKHR, .instanceCustomIndexKHR, .instanceIdKHR, .sbtRecordOffsetKHR,
   .geometryIndexKHR, .primitiveIndexKHR, .tKHR, .barycentricsKHR, .frontFaceKHR,
   .objectToWorldKHR, .worldToObjectKHR]

/-- Recognises payload copy instructions. -/
def isCopy : Instruction → Bool
  | .copyMemory _ _ => true
  | _ => false

/-- Recognises the dispatch (trace) instruction. -/
def isTraceRay : Instruction → Bool
  | .traceRayKHR _ _ _ _ _ _ _ _ _ _ _ => true
  | _ => false

/-- Storage class and pointee type id of each pointer-type declaration in a list. -/
def ptrDeclKeys (l : List Instruction) : List (StorageClass × Nat) :=
  l.filterMap fun i =>
    match i with
    | .typePointer _ sc ty => some (sc, ty)
    | _ => none

/-- A concrete compilation context used by witnesses and counterexamples: expressions
0, 2, 3, 4 are cached, global handle 1 resolves, and the ray-intersection special type
is registered as type handle 3. -/
def sampleCtx : Ctx :=
  { nextId := 100
    cached := fun n =>
      if n = 0 then some 10 else if n = 2 then some 11 else
      if n = 3 then some 12 else if n = 4 then some 13 else none
    typeCache := []
    constCache := []
    declarations := []
    funInfo := fun _ => boolT
    handleIds := fun n => if n = 1 then some 20 else none
    rayIntersectionType := some 3 }

theorem gen_id_fst (s : Ctx) : (gen_id s).1 = s.nextId := rfl

theorem gen_id_cached (s : Ctx) : (gen_id s).2.cached = s.cached := rfl

theorem gen_id_typeCache (s : Ctx) : (gen_id s).2.typeCache = s.typeCache := rfl

theorem gen_id_constCache (s : Ctx) : (gen_id s).2.constCache = s.constCache := rfl

theorem gen_id_nextId (s : Ctx) : (gen_id s).2.nextId = s.nextId + 1 := rfl

theorem get_type_id_cached (t : LookupType) (s : Ctx) :
    (get_type_id t s).2.cached = s.cached := by
  unfold get_type_id
  cases lookupType t s.typeCache <;> rfl

theorem get_type_id_constCache (t : LookupType) (s : Ctx) :
    (get_type_id t s).2.constCache = s.constCache := by
  unfold get_type_id
  cases lookupType t s.typeCache <;> rfl

theorem get_type_id_nextId_le (t : LookupType) (s : Ctx) :
    s.nextId ≤ (get_type_id t s).2.nextId := by
  unfold get_type_id
  cases lookupType t s.typeCache
  · exact Nat.le_succ _
  · exact Nat.le_refl _

theorem get_type_id_lookup_self (t : LookupType) (s : Ctx) :
    lookupType t (get_type_id t s).2.typeCache = some (get_type_id t s).1 := by
  unfold get_type_id
  cases hl : lookupType t s.typeCache
  · simp [lookupType]
  · simpa using hl

theorem get_type_id_lookup_ne (t u : LookupType) (s : Ctx) (h : t ≠ u) :
    lookupType u (get_type_id t s).2.typeCache = lookupType u s.typeCache := by
  unfold get_type_id
  cases lookupType t s.typeCache
  · simp [lookupType, h]
  · rfl

theorem get_constant_scalar_cached (v : Nat) (s : Ctx) :
    (get_constant_scalar v s).2.cached = s.cached := by
  unfold get_constant_scalar
  cases lookupConst v s.constCache <;> rfl

theorem get_constant_scalar_typeCache (v : Nat) (s : Ctx) :
    (get_constant_scalar v s).2.typeCache = s.typeCache := by
  unfold get_constant_scalar
  cases lookupConst v s.constCache <;> rfl

theorem get_constant_scalar_lookup_self (v : Nat) (s : Ctx) :
    lookupConst v (get_constant_scalar v s).2.constCache = some (get_constant_scalar v s).1 := by
  unfold get_constant_scalar
  cases hl : lookupConst v s.constCache
  · simp [lookupConst]
  · simpa using hl

theorem get_constant_scalar_lookup_ne (v w : Nat) (s : Ctx) (h : v ≠ w) :
    lookupConst w (get_constant_scalar v s).2.constCache = lookupConst w s.constCache := by
  unfold get_constant_scalar
  cases lookupConst v s.constCache
  · simp [lookupConst, h]
  · rfl

theorem get_constant_scalar_of_lookup (v i : Nat) (s : Ctx)
    (h : lookupConst v s.constCache = some i) : get_constant_scalar v s = (i, s) := by
  unfold get_constant_scalar
  rw [h]

/-- C2: for every Initialize ray-query operation with cached query and descriptor and a
resolvable acceleration-structure handle, the lowering appends exactly six
composite-extract instructions reading the descriptor at indices 0 to 5 whose result
types are u32, u32, f32, f32, vec3 and vec3 in that sequence, followed by exactly one
ray-query-initialize instruction with operands query id, acceleration-structure id, ray
flags id, cull mask id, origin id, t min id, direction id, t max id, in that order. -/
theorem C2_initialize_lowering (s : Ctx) (q accel desc qid did aid : Nat)
    (block : List Instruction)
    (hq : s.cached q = some qid) (hd : s.cached desc = some did)
    (ha : s.handleIds accel = some aid) :
    ∃ fty sty vty f0 f1 f2 f3 f4 f5 : Nat, ∃ s9 : Ctx,
      write_ray_query_function q (.init accel desc) block s =
        some (block ++
          [ Instruction.compositeExtract fty f0 did [0],
            Instruction.compositeExtract fty f1 did [1],
            Instruction.compositeExtract sty f2 did [2],
            Instruction.compositeExtract sty f3 did [3],
            Instruction.compositeExtract vty f4 did [4],
            Instruction.compositeExtract vty f5 did [5],
            Instruction.rayQueryInitializeKHR qid aid f0 f1 f4 f2 f5 f3 ], s9) ∧
      lookupType u32T s9.typeCache = some fty ∧
      lookupType f32T s9.typeCache = some sty ∧
      lookupType vec3T s9.typeCache = some vty := by
  simp only [write_ray_query_function, hq, hd, ha]
  refine ⟨_, _, _, _, _, _, _, _, _, _, rfl, ?_, ?_, ?_⟩
  · simp only [gen_id_typeCache]
    rw [get_type_id_lookup_ne vec3T u32T _ (by decide)]
    simp only [gen_id_typeCache]
    rw [get_type_id_lookup_ne f32T u32T _ (by decide)]
    simp only [gen_id_typeCache]
    exact get_type_id_lookup_self u32T s
  · simp only [gen_id_typeCache]
    rw [get_type_id_lookup_ne vec3T f32T _ (by decide)]
    simp only [gen_id_typeCache]
    exact get_type_id_lookup_self f32T _
  · simp only [gen_id_typeCache]
    exact get_type_id_lookup_self vec3T _

/-- Witness for C2 at a concrete context: expression 0 is the query (id 10), expression 2
the descriptor (id 11), handle 1 the acceleration structure (id 20). -/
theorem C2_initialize_lowering_witness :
    ∃ fty sty vty f0 f1 f2 f3 f4 f5 : Nat, ∃ s9 : Ctx,
      write_ray_query_function 0 (.init 1 2) [] sampleCtx =
        some (
          [ Instruction.compositeExtract fty f0 11 [0],
            Instruction.compositeExtract fty f1 11 [1],
            Instruction.compositeExtract sty f2 11 [2],
            Instruction.compositeExtract sty f3 11 [3],
            Instruction.compositeExtract vty f4 11 [4],
            Instruction.compositeExtract vty f5 11 [5],
            Instruction.rayQueryInitializeKHR 10 20 f0 f1 f4 f2 f5 f3 ], s9) ∧
      lookupType u32T s9.typeCache = some fty ∧
      lookupType f32T s9.typeCache = some sty ∧
      lookupType vec3T s9.typeCache = some vty := by
  have h := C2_initialize_lowering sampleCtx 0 1 2 10 11 20 [] rfl rfl rfl
  simpa using h

theorem write_varying_cached (st : ShaderStage) (ty : Nat) (s : Ctx) :
    (write_varying st ty s).2.cached = s.cached := rfl

theorem index_const_0_1_0 (s : Ctx) :
    get_index_constant 0 (get_index_constant 1 (get_index_constant 0 s).2).2 =
      ((get_index_constant 0 s).1, (get_index_constant 1 (get_index_constant 0 s).2).2) := by
  simp only [get_index_constant]
  apply get_constant_scalar_of_lookup
  rw [get_constant_scalar_lookup_ne 1 0 _ (by decide)]
  exact get_constant_scalar_lookup_self 0 _

/-- C3: for every TraceRay operation with cached descriptor and payload and a resolvable
acceleration-structure handle, the lowering emits composite-extract instructions reading
descriptor indices 0 to 5 in order, followed by one dispatch instruction whose operand
list is exactly acceleration-structure id, flags id, cull-mask id, the id of constant 0,
the id of constant 1, the id of constant 0 again, origin id, t min id, direction id,
t max id, payload storage-slot id. -/
theorem C3_trace_lowering (s : Ctx) (accel desc payload pty pid did aid : Nat)
    (block : List Instruction) (stage : ShaderStage)
    (hp : s.cached payload = some pid) (hd : s.cached desc = some did)
    (ha : s.handleIds accel = some aid) :
    ∃ fty sty vty f0 f1 f2 f3 f4 f5 vid c0 c1 : Nat, ∃ s9 : Ctx,
      write_ray_tracing_function (.traceRay accel desc payload pty) block stage s =
        some (block ++
          [ Instruction.compositeExtract fty f0 did [0],
            Instruction.compositeExtract fty f1 did [1],
            Instruction.compositeExtract sty f2 did [2],
            Instruction.compositeExtract sty f3 did [3],
            Instruction.compositeExtract vty f4 did [4],
            Instruction.compositeExtract vty f5 did [5],
            Instruction.copyMemory vid pid,
            Instruction.traceRayKHR aid f0 f1 c0 c1 c0 f4 f2 f5 f3 vid,
            Instruction.copyMemory pid vid ], s9) ∧
      lookupConst 0 s9.constCache = some c0 ∧
      lookupConst 1 s9.constCache = some c1 := by
  have hp2 : (write_varying stage pty s).2.cached payload = some pid := hp
  have hd2 : (write_varying stage pty s).2.cached desc = some did := hd
  simp only [write_ray_tracing_function, ha, hp2, hd2]
  rw [index_const_0_1_0]
  refine ⟨_, _, _, _, _, _, _, _, _, _, _, _, _, rfl, ?_, ?_⟩
  · dsimp only [get_index_constant]
    rw [get_constant_scalar_lookup_ne 1 0 _ (by decide)]
    exact get_constant_scalar_lookup_self 0 _
  · dsimp only [get_index_constant]
    exact get_constant_scalar_lookup_self 1 _

/-- Witness for C3 at a concrete context: handle 1 the acceleration structure, expression
2 the descriptor, expression 3 the payload. -/
theorem C3_trace_lowering_witness :
    ∃ fty sty vty f0 f1 f2 f3 f4 f5 vid c0 c1 : Nat, ∃ s9 : Ctx,
      write_ray_tracing_function (.traceRay 1 2 3 7) [] .rayGeneration sampleCtx =
        some (
          [ Instruction.compositeExtract fty f0 11 [0],
            Instruction.compositeExtract fty f1 11 [1],
            Instruction.compositeExtract sty f2 11 [2],
            Instruction.compositeExtract sty f3 11 [3],
            Instruction.compositeExtract vty f4 11 [4],
            Instruction.compositeExtract vty f5 11 [5],
            Instruction.copyMemory vid 12,
            Instruction.traceRayKHR 20 f0 f1 c0 c1 c0 f4 f2 f5 f3 vid,
            Instruction.copyMemory 12 vid ], s9) ∧
      lookupConst 0 s9.constCache = some c0 ∧
      lookupConst 1 s9.constCache = some c1 := by
  have h := C3_trace_lowering sampleCtx 1 2 3 7 12 11 20 [] .rayGeneration rfl rfl rfl
  simpa using h

/-- C4: for every TraceRay operation, the emitted sequence contains exactly one copy
instruction moving the cached payload value into the payload storage slot immediately
before the dispatch instruction and exactly one copy instruction moving the slot back
into the cached payload value immediately after it: the whole emission holds exactly two
copy instructions and exactly one dispatch instruction, adjacent in that bracket. -/
theorem C4_dispatch_bracketing (s : Ctx) (accel desc payload pty pid did aid : Nat)
    (block : List Instruction) (stage : ShaderStage)
    (hp : s.cached payload = some pid) (hd : s.cached desc = some did)
    (ha : s.handleIds accel = some aid) :
    ∃ fty sty vty f0 f1 f2 f3 f4 f5 vid c0 c1 c2 : Nat, ∃ s9 : Ctx, ∃ l : List Instruction,
      write_ray_tracing_function (.traceRay accel desc payload pty) block stage s =
        some (block ++ l, s9) ∧
      l = [ Instruction.compositeExtract fty f0 did [0],
            Instruction.compositeExtract fty f1 did [1],
            Instruction.compositeExtract sty f2 did [2],
            Instruction.compositeExtract sty f3 did [3],
            Instruction.compositeExtract vty f4 did [4],
            Instruction.compositeExtract vty f5 did [5],
            Instruction.copyMemory vid pid,
            Instruction.traceRayKHR aid f0 f1 c0 c1 c2 f4 f2 f5 f3 vid,
            Instruction.copyMemory pid vid ] ∧
      l.countP isCopy = 2 ∧
      l.countP isTraceRay = 1 := by
  have hp2 : (write_varying stage pty s).2.cached payload = some pid := hp
  have hd2 : (write_varying stage pty s).2.cached desc = some did := hd
  simp only [write_ray_tracing_function, ha, hp2, hd2]
  exact ⟨_, _, _, _, _, _, _, _, _, _, _, _, _, _, _, rfl, rfl, rfl, rfl⟩

/-- Witness for C4 at a concrete context. -/
theorem C4_dispatch_bracketing_witness :
    ∃ fty sty vty f0 f1 f2 f3 f4 f5 vid c0 c1 c2 : Nat, ∃ s9 : Ctx, ∃ l : List Instruction,
      write_ray_tracing_function (.traceRay 1 2 3 7) [] .rayGeneration sampleCtx =
        some (l, s9) ∧
      l = [ Instruction.compositeExtract fty f0 11 [0],
            Instruction.compositeExtract fty f1 11 [1],
            Instruction.compositeExtract sty f2 11 [2],
            Instruction.compositeExtract sty f3 11 [3],
            Instruction.compositeExtract vty f4 11 [4],
            Instruction.compositeExtract vty f5 11 [5],
            Instruction.copyMemory vid 12,
            Instruction.traceRayKHR 20 f0 f1 c0 c1 c2 f4 f2 f5 f3 vid,
            Instruction.copyMemory 12 vid ] ∧
      l.countP isCopy = 2 ∧
      l.countP isTraceRay = 1 := by
  have h := C4_dispatch_bracketing sampleCtx 1 2 3 7 12 11 20 [] .rayGeneration rfl rfl rfl
  simpa using h

/-- Counterexample to C1 as stated: on a concrete cached query, the eleven extraction
instructions are not emitted in the documented field order (kind, t, instance custom
index, ...); they are emitted with t seventh, after the six u32-typed attributes. -/
theorem C1_counterexample :
    (write_ray_query_get_intersection 0 [] sampleCtx).map (fun r => intersectionOps r.2.1) =
      some emissionOrder ∧ emissionOrder ≠ documentedFieldOrder := by
  exact ⟨by decide, by decide⟩

/-- C1 (amended): for every query expression whose id is cached and with the
ray-intersection special type registered, the lowering emits exactly eleven
field-extraction instructions, one per documented field, in emission order kind,
instance custom index, instance id, SBT record offset, geometry index, primitive index,
t, barycentrics, front face, object-to-world, world-to-object, followed by exactly one
composite-construct instruction whose component ids are the eleven extraction result ids
rearranged into the documented field order kind, t, instance custom index, instance id,
SBT record offset, geometry index, primitive index, barycentrics, front face,
object-to-world, world-to-object. -/
theorem C1_extraction_emission (s : Ctx) (q qid ht : Nat) (block : List Instruction)
    (hq : s.cached q = some qid) (hty : s.rayIntersectionType = some ht) :
    ∃ fty sty b2ty bty mty ity cid : Nat,
      ∃ kind icx iid sbt geom prim t bary ff o2w w2o outId : Nat, ∃ s9 : Ctx,
      write_ray_query_get_intersection q block s =
        some (outId, block ++
          [ Instruction.rayQueryGetIntersection .typeKHR fty kind qid cid,
            Instruction.rayQueryGetIntersection .instanceCustomIndexKHR fty icx qid cid,
            Instruction.rayQueryGetIntersection .instanceIdKHR fty iid qid cid,
            Instruction.rayQueryGetIntersection .sbtRecordOffsetKHR fty sbt qid cid,
            Instruction.rayQueryGetIntersection .geometryIndexKHR fty geom qid cid,
            Instruction.rayQueryGetIntersection .primitiveIndexKHR fty prim qid cid,
            Instruction.rayQueryGetIntersection .tKHR sty t qid cid,
            Instruction.rayQueryGetIntersection .barycentricsKHR b2ty bary qid cid,
            Instruction.rayQueryGetIntersection .frontFaceKHR bty ff qid cid,
            Instruction.rayQueryGetIntersection .objectToWorldKHR mty o2w qid cid,
            Instruction.rayQueryGetIntersection .worldToObjectKHR mty w2o qid cid,
            Instruction.compositeConstruct ity outId
              [kind, t, icx, iid, sbt, geom, prim, bary, ff, o2w, w2o] ], s9) := by
  simp only [write_ray_query_get_intersection, hq, hty]
  exact ⟨_, _, _, _, _, _, _, _, _, _, _, _, _, _, _, _, _, _, _, _, rfl⟩

/-- Witness for the amended C1 at a concrete context. -/
theorem C1_extraction_emission_witness :
    ∃ fty sty b2ty bty mty ity cid : Nat,
      ∃ kind icx iid sbt geom prim t bary ff o2w w2o outId : Nat, ∃ s9 : Ctx,
      write_ray_query_get_intersection 0 [] sampleCtx =
        some (outId,
          [ Instruction.rayQueryGetIntersection .typeKHR fty kind 10 cid,
            Instruction.rayQueryGetIntersection .instanceCustomIndexKHR fty icx 10 cid,
            Instruction.rayQueryGetIntersection .instanceIdKHR fty iid 10 cid,
            Instruction.rayQueryGetIntersection .sbtRecordOffsetKHR fty sbt 10 cid,
            Instruction.rayQueryGetIntersection .geometryIndexKHR fty geom 10 cid,
            Instruction.rayQueryGetIntersection .primitiveIndexKHR fty prim 10 cid,
            Instruction.rayQueryGetIntersection .tKHR sty t 10 cid,
            Instruction.rayQueryGetIntersection .barycentricsKHR b2ty bary 10 cid,
            Instruction.rayQueryGetIntersection .frontFaceKHR bty ff 10 cid,
            Instruction.rayQueryGetIntersection .objectToWorldKHR mty o2w 10 cid,
            Instruction.rayQueryGetIntersection .worldToObjectKHR mty w2o 10 cid,
            Instruction.compositeConstruct ity outId
              [kind, t, icx, iid, sbt, geom, prim, bary, ff, o2w, w2o] ], s9) := by
  have h := C1_extraction_emission sampleCtx 0 10 3 [] rfl rfl
  simpa using h

/-- C6: invoking the Proceed lowering on a query handle with no value-cache entry aborts
the translation (the fatal path of the cached-expression lookup) and produces no
instruction at all. -/
theorem C6_proceed_missing_cache (s : Ctx) (q r : Nat) (block : List Instruction)
    (h : s.cached q = none) :
    write_ray_query_function q (.proceed r) block s = none := by
  simp only [write_ray_query_function, h]

/-- Witness for C6: expression 1 has no cache entry in the sample context. -/
theorem C6_proceed_missing_cache_witness :
    write_ray_query_function 1 (.proceed 5) [] sampleCtx = none :=
  C6_proceed_missing_cache sampleCtx 1 5 [] rfl

/-- C8: for every Advance (Proceed) operation on a cached query id, the lowering appends
exactly one instruction, consuming the query id and producing a result whose fresh id
(the allocator counter) is recorded in the value cache under the result expression; when
the expression type info assigns the result the boolean type, the instruction result
type is the interned boolean type id. -/
theorem C8_proceed_lowering (s : Ctx) (q r qid : Nat) (block : List Instruction)
    (hq : s.cached q = some qid) (hty : s.funInfo r = boolT) :
    ∃ rid rty : Nat, ∃ s9 : Ctx,
      write_ray_query_function q (.proceed r) block s =
        some (block ++ [Instruction.rayQueryProceedKHR rty rid qid], s9) ∧
      rid = s.nextId ∧
      s9.cached r = some rid ∧
      lookupType boolT s9.typeCache = some rty := by
  simp only [write_ray_query_function, hq]
  refine ⟨_, _, _, rfl, rfl, ?_, ?_⟩
  · rw [get_type_id_cached]
    simp
  · dsimp only [gen_id]
    rw [hty]
    exact get_type_id_lookup_self boolT _

/-- Witness for C8 at a concrete context: expression 0 is the cached query, expression 5
the result expression. -/
theorem C8_proceed_lowering_witness :
    ∃ rid rty : Nat, ∃ s9 : Ctx,
      write_ray_query_function 0 (.proceed 5) [] sampleCtx =
        some ([Instruction.rayQueryProceedKHR rty rid 10], s9) ∧
      rid = 100 ∧
      s9.cached 5 = some rid ∧
      lookupType boolT s9.typeCache = some rty := by
  have h := C8_proceed_lowering sampleCtx 0 5 10 [] rfl rfl
  simpa using h

/-- C7: for every ReportIntersection operation with cached hit-distance, hit-kind and
intersection operands, the report instruction's two value operands are exactly the
cached ids of the hit distance and the hit kind, in that order; its result id is freshly
allocated (at least the incoming allocator counter, hence distinct from every id
allocated before this call), carries the interned boolean type, and is recorded in the
value cache under the result expression. -/
theorem C7_report_lowering (s : Ctx) (hitT hitType intersection result a b c : Nat)
    (ity : LookupType) (block : List Instruction) (stage : ShaderStage)
    (h1 : s.cached hitT = some a) (h2 : s.cached hitType = some b)
    (h3 : s.cached intersection = some c) :
    ∃ pvar rid rty : Nat, ∃ s9 : Ctx,
      write_ray_tracing_function (.reportIntersection hitT hitType intersection ity result)
          block stage s =
        some (block ++
          [ Instruction.store pvar c,
            Instruction.reportIntersectionKHR rty rid a b ], s9) ∧
      s9.cached result = some rid ∧
      s.nextId ≤ rid ∧
      (∀ j, j < s.nextId → rid ≠ j) ∧
      lookupType boolT s9.typeCache = some rty := by
  have key : (get_type_id ity (gen_id (gen_id s).2).2).2.cached = s.cached := by
    rw [get_type_id_cached, gen_id_cached, gen_id_cached]
  have h1b : (get_type_id ity (gen_id (gen_id s).2).2).2.cached hitT = some a := by
    rw [key, h1]
  have h2b : (get_type_id ity (gen_id (gen_id s).2).2).2.cached hitType = some b := by
    rw [key, h2]
  have h3b : (get_type_id ity (gen_id (gen_id s).2).2).2.cached intersection = some c := by
    rw [key, h3]
  simp only [write_ray_tracing_function, h1b, h2b, h3b]
  refine ⟨_, _, _, _, rfl, ?_, ?_, ?_, ?_⟩
  · simp
  · have hle := get_type_id_nextId_le ity (gen_id (gen_id s).2).2
    dsimp only [gen_id] at hle ⊢
    omega
  · intro j hj
    have hle := get_type_id_nextId_le ity (gen_id (gen_id s).2).2
    dsimp only [gen_id] at hle ⊢
    omega
  · exact get_type_id_lookup_self boolT _

/-- Witness for C7 at a concrete context: expressions 2, 3, 4 hold the cached hit
distance, hit kind and candidate intersection value. -/
theorem C7_report_lowering_witness :
    ∃ pvar rid rty : Nat, ∃ s9 : Ctx,
      write_ray_tracing_function (.reportIntersection 2 3 4 u32T 9) [] .rayGeneration sampleCtx =
        some (
          [ Instruction.store pvar 13,
            Instruction.reportIntersectionKHR rty rid 11 12 ], s9) ∧
      s9.cached 9 = some rid ∧
      100 ≤ rid ∧
      (∀ j, j < 100 → rid ≠ j) ∧
      lookupType boolT s9.typeCache = some rty := by
  have h := C7_report_lowering sampleCtx 2 3 4 9 11 12 13 u32T [] .rayGeneration rfl rfl rfl
  simpa using h

/-- C9: the lowering routines are deterministic functions of the explicit compilation
state: two contexts agreeing on the allocator counter, value cache, type cache, constant
cache, declarations, expression type info, handle table and special type yield identical
outputs for every operation. -/
theorem C9_determinism (s1 s2 : Ctx) (f : RayTracingFunction) (q : Nat)
    (g : RayQueryFunction) (block : List Instruction) (stage : ShaderStage)
    (hn : s1.nextId = s2.nextId) (hc : s1.cached = s2.cached)
    (htc : s1.typeCache = s2.typeCache) (hk : s1.constCache = s2.constCache)
    (hdec : s1.declarations = s2.declarations) (hf : s1.funInfo = s2.funInfo)
    (hh : s1.handleIds = s2.handleIds)
    (hr : s1.rayIntersectionType = s2.rayIntersectionType) :
    write_ray_tracing_function f block stage s1 = write_ray_tracing_function f block stage s2 ∧
    write_ray_query_function q g block s1 = write_ray_query_function q g block s2 ∧
    write_ray_query_get_intersection q block s1 = write_ray_query_get_intersection q block s2 := by
  have hs : s1 = s2 := by
    cases s1
    cases s2
    simp_all
  subst hs
  exact ⟨rfl, rfl, rfl⟩

/-- Witness for C9 at a concrete context and operations. -/
theorem C9_determinism_witness :
    write_ray_tracing_function (.traceRay 1 2 3 7) [] .rayGeneration sampleCtx =
      write_ray_tracing_function (.traceRay 1 2 3 7) [] .rayGeneration sampleCtx ∧
    write_ray_query_function 0 (.proceed 5) [] sampleCtx =
      write_ray_query_function 0 (.proceed 5) [] sampleCtx ∧
    write_ray_query_get_intersection 0 [] sampleCtx =
      write_ray_query_get_intersection 0 [] sampleCtx :=
  C9_determinism sampleCtx sampleCtx (.traceRay 1 2 3 7) 0 (.proceed 5) [] .rayGeneration
    rfl rfl rfl rfl rfl rfl rfl rfl

/-- C10: the intersection-extraction lowering leaves the value cache unchanged; it
returns the constructed composite id to its caller without recording any cache entry. -/
theorem C10_get_intersection_cache_frame (s : Ctx) (q : Nat) (block : List Instruction)
    (out : Nat) (b2 : List Instruction) (s9 : Ctx)
    (h : write_ray_query_get_intersection q block s = some (out, b2, s9)) :
    s9.cached = s.cached := by
  cases hq : s.cached q with
  | none => simp [write_ray_query_get_intersection, hq] at h
  | some qid =>
    cases hti : s.rayIntersectionType with
    | none => simp [write_ray_query_get_intersection, hq, hti] at h
    | some ht =>
      simp only [write_ray_query_get_intersection, hq, hti, Option.some.injEq,
        Prod.mk.injEq] at h
      obtain ⟨-, -, h3⟩ := h
      subst h3
      simp only [get_type_id_cached, gen_id_cached, get_constant_scalar_cached]

/-- The concrete output triple used by the C10 witness. -/
def c10run : Nat × List Instruction × Ctx :=
  (write_ray_query_get_intersection 0 [] sampleCtx).getD (0, [], sampleCtx)

/-- Witness for C10 at a concrete context. -/
theorem C10_get_intersection_cache_frame_witness :
    c10run.2.2.cached = sampleCtx.cached :=
  C10_get_intersection_cache_frame sampleCtx 0 [] c10run.1 c10run.2.1 c10run.2.2 rfl

theorem get_type_id_of_lookup (t : LookupType) (i : Nat) (s : Ctx)
    (h : lookupType t s.typeCache = some i) : get_type_id t s = (i, s) := by
  unfold get_type_id
  rw [h]

/-- Counterexample to C5 as stated: lowering two ReportIntersection operations with the
same intersection type from the sample context appends two structurally identical
pointer-type declarations (storage class HitAttributeKHR, pointee type id 102) to the
declaration section, because that declaration is written directly, bypassing the
interner. -/
theorem C5_counterexample :
    ((write_ray_tracing_function (.reportIntersection 2 3 4 u32T 9) [] .rayGeneration
          sampleCtx).bind fun r =>
        write_ray_tracing_function (.reportIntersection 2 3 4 u32T 9) r.1 .rayGeneration
          r.2).map
      (fun r => (ptrDeclKeys r.2.declarations).count (StorageClass.hitAttributeKHR, 102)) =
      some 2 := by
  decide

/-- C5 (amended): the Type Interner itself is idempotent: requesting a structurally
identical type twice returns the same identifier and leaves the whole state, in
particular the declaration section, unchanged on the second request, so at most one
interner declaration is emitted per structural type; the per-call-site pointer-type
declaration in ReportIntersection lowering bypasses the interner and may duplicate. -/
theorem C5_interner_idempotence (t : LookupType) (s : Ctx) :
    get_type_id t (get_type_id t s).2 = ((get_type_id t s).1, (get_type_id t s).2) :=
  get_type_id_of_lookup t _ _ (get_type_id_lookup_self t s)

end WgpuRay
